import Mathlib

/-!
Verification of the AI lifestyle recommendation system.

The repository ships the Streamlit presentation layer (`app.py`); the
recommendation engine it imports (`src.recommender.RecommendationEngine`)
is not part of the repository snapshot, so the engine components are
modelled from the specification (each such definition carries a
`Modelled from the spec:` doc comment).  The presentation layer
(`display_*` functions, the quick and advanced tabs of `main`) is
embedded directly from `app.py`.
-/

namespace RecSys

/-- Rounding a rational to 2 decimal places, as the spec's
"sum, rounded to 2 decimal places". -/
def round2 (x : ℚ) : ℚ := ((round (100 * x) : ℤ) : ℚ) / 100

/-- Python's `str.strip()`: the string with leading and trailing
whitespace removed. -/
def pyStrip (s : String) : String :=
  String.mk
    (((s.data.dropWhile Char.isWhitespace).reverse.dropWhile
        Char.isWhitespace).reverse)

/-- Whether a string is blank, i.e. empty or whitespace-only — Python's
`not s.strip()`. -/
def isBlank (s : String) : Bool := (pyStrip s).data.isEmpty

/-- Modelled from the spec: the Cost Estimator's "fixed per-ticket price"
for movies (the engine source is missing; the constant's exact value is
not fixed by the spec, only that it is a fixed nonnegative ticket price). -/
def TICKET_PRICE : ℚ := 12

/-- Modelled from the spec: the Cost Estimator's "price-tier-to-dollar
mapping" for restaurants (engine source missing; values are a fixed
nonnegative mapping from tier strings to dollars). -/
def tierToDollars (t : String) : ℚ :=
  if t = "$" then 10
  else if t = "$$" then 25
  else if t = "$$$" then 45
  else if t = "$$$$" then 70
  else 0

/-- Modelled from the spec: a CatalogItem's "cost fields (price tier or
per-person cost)" — a restaurant carries a price tier, an activity a
per-person cost, a movie carries neither. -/
inductive CostField where
  | tier (t : String)
  | perPerson (c : ℚ)
  | noCost
deriving DecidableEq

/-- Modelled from the spec: CatalogItem — id, display name, cost field,
group_size_range [min,max], optional location, and the text embedded at
catalog build time. -/
structure CatalogItem where
  id : String
  name : String
  cost : CostField
  groupMin : Nat
  groupMax : Nat
  location : Option String
  embedding_text : String
deriving DecidableEq

/-- The per-person cost of an item: tier-mapped dollars for a restaurant,
the stored per-person cost for an activity, absent for a movie. -/
def itemPerPersonCost (item : CatalogItem) : Option ℚ :=
  match item.cost with
  | CostField.tier t => some (tierToDollars t)
  | CostField.perPerson c => some c
  | CostField.noCost => none

/-- Decidable non-negativity of an item's cost field (the "expected
shape" of catalog data: per-person costs are not negative; tier costs are
nonnegative by construction of the tier map). -/
def costNonneg : CostField → Bool
  | CostField.perPerson c => decide (0 ≤ c)
  | _ => true

/-- Modelled from the spec: PreferenceRecord — mood, occasion, budget,
group size, location are best-effort and may be absent; raw_text is
always populated. -/
structure PreferenceRecord where
  mood : Option String
  occasion : Option String
  budget : Option ℚ
  group_size : Option Nat
  location : Option String
  raw_text : String
deriving DecidableEq

/-- Modelled from the spec: the Candidate Selector's hard-constraint
check.  Budget (when present) bounds the item's per-person cost
(restaurants/activities only — movies have no per-person cost field);
group_size (when present) must lie within the item's [min,max] range
inclusive; location (when present) must equal the item's location
case-insensitively, or the item has no location constraint. -/
def satisfiesConstraints (prefs : PreferenceRecord) (item : CatalogItem) : Bool :=
  (match prefs.budget, itemPerPersonCost item with
    | some b, some c => decide (c ≤ b)
    | _, _ => true) &&
  (match prefs.group_size with
    | some g => decide (item.groupMin ≤ g) && decide (g ≤ item.groupMax)
    | none => true) &&
  (match prefs.location, item.location with
    | some l, some il => il.toLower = l.toLower
    | _, _ => true)

/-- Modelled from the spec: the Candidate Selector.  Iterate candidates
in the given (descending-score) order; the first candidate satisfying all
specified hard constraints wins; if none does, fall back to the single
highest-scoring candidate (the head of the descending list); an empty
candidate list yields absent. -/
def select (candidates : List (CatalogItem × ℚ)) (prefs : PreferenceRecord) :
    Option CatalogItem :=
  match candidates.find? (fun cs => satisfiesConstraints prefs cs.1) with
  | some cs => some cs.1
  | none => (candidates.head?).map (fun cs => cs.1)

/-- Modelled from the spec: the per-domain Embedding Index — each catalog
item stored with the vector of its embedding_text. -/
structure EmbeddingIndex where
  entries : List (CatalogItem × List ℚ)

/-- Modelled from the spec: `build(items) -> Index`, embedding every
item's embedding_text once. -/
def buildIndex (embed : String → List ℚ) (items : List CatalogItem) :
    EmbeddingIndex :=
  { entries := items.map (fun item => (item, embed item.embedding_text)) }

/-- Modelled from the spec: `query(vector, k)` — score every stored item
against the query vector, order descending by score with ties broken by
catalog insertion order (stable sort), and return at most k. -/
def queryIndex (sim : List ℚ → List ℚ → ℚ) (idx : EmbeddingIndex)
    (v : List ℚ) (k : Nat) : List (CatalogItem × ℚ) :=
  let scored := idx.entries.map (fun e => (e.1, sim v e.2))
  (List.insertionSort (fun a b : CatalogItem × ℚ => b.2 ≤ a.2) scored).take k

/-- Modelled from the spec: the static catalog — collections of candidate
movies, restaurants, activities. -/
structure Catalog where
  movies : List CatalogItem
  restaurants : List CatalogItem
  activities : List CatalogItem

/-- Modelled from the spec: the engine's explicitly owned context object —
catalog (whose load may have failed), the injectable language-model
extraction and reasoning collaborators, the embedding backend, the
similarity function, and the retrieval depth k. -/
structure EngineCtx where
  catalog : Except String Catalog
  extractLM : String → Option PreferenceRecord
  embed : String → List ℚ
  sim : List ℚ → List ℚ → ℚ
  explain : PreferenceRecord → Option CatalogItem → Option CatalogItem →
    Option CatalogItem → Option String
  k : Nat

/-- Modelled from the spec: the empty-preferences record holding only the
raw text, the Preference Extractor's degradation target. -/
def emptyPrefs (text : String) : PreferenceRecord :=
  { mood := none, occasion := none, budget := none, group_size := none,
    location := none, raw_text := text }

/-- Modelled from the spec: out-of-range values (negative budget,
zero group size) are treated as absent, and raw_text is always the input
text. -/
def sanitizePrefs (text : String) (p : PreferenceRecord) : PreferenceRecord :=
  { p with raw_text := text,
           budget := p.budget.bind (fun b => if b < 0 then none else some b),
           group_size := p.group_size.bind (fun g => if g = 0 then none else some g) }

/-- Modelled from the spec: `extract(raw_text) -> PreferenceRecord`.
A model failure (after its internal retry), represented by the
collaborator returning none, degrades to the empty-preferences record —
extraction never fails the request. -/
def extractPrefs (ctx : EngineCtx) (text : String) : PreferenceRecord :=
  match ctx.extractLM text with
  | some p => sanitizePrefs text p
  | none => emptyPrefs text

/-- Modelled from the spec: the query text synthesized from the
preference record (concatenating mood/occasion/location/raw_text). -/
def synthesizeQueryText (p : PreferenceRecord) : String :=
  String.intercalate " "
    (p.mood.toList ++ p.occasion.toList ++ p.location.toList ++ [p.raw_text])

/-- Modelled from the spec: one domain's retrieval-then-selection
pipeline — embed the synthesized query, query that domain's index, run
the selector. -/
def domainPipeline (ctx : EngineCtx) (items : List CatalogItem)
    (prefs : PreferenceRecord) : Option CatalogItem :=
  let qv := ctx.embed (synthesizeQueryText prefs)
  select (queryIndex ctx.sim (buildIndex ctx.embed items) qv ctx.k) prefs

/-- Modelled from the spec: the Cost Estimator.  Movie cost is the fixed
ticket price times group size (1 when absent); restaurant cost is the
tier-mapped dollars times group size; activity cost is cost_per_person
times group size; absent items contribute 0; the sum is rounded to two
decimal places. -/
def estimate (movie restaurant activity : Option CatalogItem)
    (group_size : Option Nat) : ℚ :=
  let g : ℚ := (group_size.getD 1 : Nat)
  let movieCost : ℚ := match movie with
    | some _ => TICKET_PRICE * g
    | none => 0
  let restaurantCost : ℚ := match restaurant with
    | some r => (itemPerPersonCost r).getD 0 * g
    | none => 0
  let activityCost : ℚ := match activity with
    | some a => (itemPerPersonCost a).getD 0 * g
    | none => 0
  round2 (movieCost + restaurantCost + activityCost)

/-- Modelled from the spec: the Reasoning Generator's deterministic
templated fallback sentence built from the available fields. -/
def fallbackReasoning (movie restaurant activity : Option CatalogItem) : String :=
  "Based on your preferences, we selected " ++
    String.intercalate ", "
      ((movie.toList ++ restaurant.toList ++ activity.toList).map
        (fun item => item.name)) ++ "."

/-- Modelled from the spec: RecommendationResult. -/
structure RecommendationResult where
  status : String
  message : Option String
  movie : Option CatalogItem
  restaurant : Option CatalogItem
  activity : Option CatalogItem
  estimated_cost : ℚ
  reasoning : Option String
deriving DecidableEq

/-- Modelled from the spec: an error result — status "error", message
present, all item fields absent. -/
def errorResult (msg : String) : RecommendationResult :=
  { status := "error", message := some msg, movie := none, restaurant := none,
    activity := none, estimated_cost := 0, reasoning := none }

/-- Modelled from the spec: the orchestrator
`get_recommendations(raw_text) -> RecommendationResult`.  Validate the
input, short-circuit to status "error" on a structural failure (catalog
unavailable), otherwise extract preferences, run the three independent
domain pipelines, estimate the cost, generate reasoning (with the
templated fallback when the model fails), and assemble a status "ok"
result.  As a Lean function it is total: no exception can escape. -/
def get_recommendations (ctx : EngineCtx) (text : String) :
    RecommendationResult :=
  if isBlank text then errorResult "Input text must be non-empty"
  else
    match ctx.catalog with
    | Except.error msg => errorResult msg
    | Except.ok cat =>
      let prefs := extractPrefs ctx text
      let movie := domainPipeline ctx cat.movies prefs
      let restaurant := domainPipeline ctx cat.restaurants prefs
      let activity := domainPipeline ctx cat.activities prefs
      let cost := estimate movie restaurant activity prefs.group_size
      let reasoning := match ctx.explain prefs movie restaurant activity with
        | some s => if s.isEmpty then fallbackReasoning movie restaurant activity else s
        | none => fallbackReasoning movie restaurant activity
      { status := "ok", message := none, movie := movie,
        restaurant := restaurant, activity := activity,
        estimated_cost := cost, reasoning := some reasoning }

/-! ## Presentation layer, embedded from `app.py` -/

/-- Python's `str.title()`: the first alphabetic character of each run of
letters is uppercased, the rest lowercased (used by `app.py` on location
strings). -/
def pyTitle (s : String) : String :=
  String.mk ((s.toList.foldl
    (fun (acc : List Char × Bool) c =>
      if c.isAlpha then
        ((if acc.2 then c.toLower else c.toUpper) :: acc.1, true)
      else (c :: acc.1, false))
    ([], false)).1.reverse)

/-- How a Python f-string renders an optional value: an absent value
(`None`) prints as "None". -/
def fmtOptStr : Option String → String
  | some s => s
  | none => "None"

/-- `", ".join(...)` over a list of naturals, as `app.py` does for
group-size lists. -/
def joinNats (l : List Nat) : String :=
  String.intercalate ", " (l.map (fun n => toString n))

/-- The movie dict as read by `display_movie_recommendation` — each
`movie.get(key, default)` access corresponds to one optional field. -/
structure MovieDict where
  title : Option String
  genre : List String
  duration_minutes : Option Nat
  rating : Option ℚ
  description : Option String
  mood_tags : List String
deriving DecidableEq

/-- The restaurant dict as read by `display_restaurant_recommendation`. -/
structure RestaurantDict where
  name : Option String
  cuisine : List String
  location : Option String
  ambiance : List String
  price_range : Option String
  description : Option String
  group_size : List Nat
deriving DecidableEq

/-- The activity dict as read by `display_activity_recommendation`. -/
structure ActivityDict where
  name : Option String
  type : List String
  duration_minutes : Option Nat
  location : Option String
  cost_per_person : Option ℚ
  description : Option String
  group_size : List Nat
deriving DecidableEq

/-- The result dict passed to `display_recommendations` — each
`result.get(...)` access corresponds to one optional field. -/
structure ResultDict where
  status : Option String
  message : Option String
  estimated_cost : Option ℚ
  movie : Option MovieDict
  restaurant : Option RestaurantDict
  activity : Option ActivityDict
  reasoning : Option String
deriving DecidableEq

/-- One observable Streamlit call made by the display functions of
`app.py`. -/
inductive RenderAction where
  | errorMsg (s : String)
  | subheader (s : String)
  | write (s : String)
  | metric (label value : String)
  | costPanel (cost : ℚ)
  | reasoningPanel (s : String)
  | rawJson
deriving DecidableEq

/-- `display_movie_recommendation` of `app.py`: returns silently on a
missing movie, otherwise renders the movie card. -/
def display_movie_recommendation : Option MovieDict → List RenderAction
  | none => []
  | some movie =>
    [RenderAction.subheader "🎬 Movie Recommendation",
     RenderAction.write ("*" ++ movie.title.getD "N/A" ++ "*"),
     RenderAction.write ("Genre: " ++ String.intercalate ", " movie.genre),
     RenderAction.write ("Duration: " ++
       (match movie.duration_minutes with
         | some d => toString d
         | none => "N/A") ++ " minutes"),
     RenderAction.write ("Rating: " ++
       String.mk (List.replicate (((movie.rating.getD 0) / 2).floor.toNat) '⭐')),
     RenderAction.metric "Rating"
       ((match movie.rating with
         | some r => toString r
         | none => "N/A") ++ "/10"),
     RenderAction.write ("Description: " ++ movie.description.getD "N/A"),
     RenderAction.write ("Mood Tags: " ++ String.intercalate ", " movie.mood_tags)]

/-- `display_restaurant_recommendation` of `app.py`: returns silently on
a missing restaurant, otherwise renders the restaurant card. -/
def display_restaurant_recommendation : Option RestaurantDict → List RenderAction
  | none => []
  | some restaurant =>
    [RenderAction.subheader "🍽️ Restaurant Recommendation",
     RenderAction.write ("*" ++ restaurant.name.getD "N/A" ++ "*"),
     RenderAction.write ("Cuisine: " ++ String.intercalate ", " restaurant.cuisine),
     RenderAction.write ("Location: " ++ pyTitle (restaurant.location.getD "N/A")),
     RenderAction.write ("Ambiance: " ++ String.intercalate ", " restaurant.ambiance),
     RenderAction.metric "Price Range" (restaurant.price_range.getD "N/A"),
     RenderAction.write ("Description: " ++ restaurant.description.getD "N/A"),
     RenderAction.write ("Suitable for groups of: " ++ joinNats restaurant.group_size)]

/-- `display_activity_recommendation` of `app.py`: returns silently on a
missing activity, otherwise renders the activity card. -/
def display_activity_recommendation : Option ActivityDict → List RenderAction
  | none => []
  | some activity =>
    [RenderAction.subheader "🎯 Activity Recommendation",
     RenderAction.write ("*" ++ activity.name.getD "N/A" ++ "*"),
     RenderAction.write ("Type: " ++ String.intercalate ", " activity.type),
     RenderAction.write ("Duration: " ++
       (match activity.duration_minutes with
         | some d => toString d
         | none => "N/A") ++ " minutes"),
     RenderAction.write ("Location: " ++ pyTitle (activity.location.getD "N/A")),
     RenderAction.metric "Cost per Person"
       ("$" ++ (match activity.cost_per_person with
         | some c => toString c
         | none => "N/A")),
     RenderAction.write ("Description: " ++ activity.description.getD "N/A"),
     RenderAction.write ("Suitable for groups of: " ++ joinNats activity.group_size)]

/-- `display_recommendations` of `app.py`: an error status renders the
single error message and returns; otherwise the cost panel, the three
domain cards, the reasoning panel when reasoning is truthy, and the raw
JSON expander are rendered in order. -/
def display_recommendations (result : ResultDict) : List RenderAction :=
  if result.status = some "error" then
    [RenderAction.errorMsg ("❌ Error: " ++ fmtOptStr result.message)]
  else
    [RenderAction.costPanel (result.estimated_cost.getD 0)] ++
    display_movie_recommendation result.movie ++
    display_restaurant_recommendation result.restaurant ++
    display_activity_recommendation result.activity ++
    (match result.reasoning with
      | some s => if s.isEmpty then [] else [RenderAction.reasoningPanel s]
      | none => []) ++
    [RenderAction.rawJson]

/-- An observable event of `main` in `app.py`: a user-facing warning, an
invocation of the engine with some text, or a render call. -/
inductive AppEvent where
  | warn (s : String)
  | engineCall (text : String)
  | render (a : RenderAction)
deriving DecidableEq

/-- The quick-recommendation button handler of `main` in `app.py`:
whitespace-only input is rejected with a warning before the engine is
reached; otherwise the engine is called on the raw input and the result
displayed. -/
def quickTab (engine : String → ResultDict) (user_input : String) :
    List AppEvent :=
  if isBlank user_input then
    [AppEvent.warn "⚠️ Please enter your preferences"]
  else
    AppEvent.engineCall user_input ::
      (display_recommendations (engine user_input)).map AppEvent.render

/-- The enhanced-input construction of the advanced tab of `main` in
`app.py`: the user text, extended in order by a budget segment when
budget > 0, a group-size segment when people_count > 1, a location
segment when the location is not "Not specified", and an occasion segment
when the occasion is not "Not specified". -/
def enhanced_input (user_input : String) (budget people_count : Nat)
    (location occasion : String) : String :=
  let e1 := user_input
  let e2 := if budget > 0 then e1 ++ " Budget: $" ++ toString budget else e1
  let e3 := if people_count > 1 then
      e2 ++ " Group size: " ++ toString people_count ++ " people"
    else e2
  let e4 := if location ≠ "Not specified" then e3 ++ " Location: " ++ location else e3
  if occasion ≠ "Not specified" then e4 ++ " Occasion: " ++ occasion else e4

/-- The advanced-recommendation button handler of `main` in `app.py`:
the guard inspects the raw user input; when it passes, the engine is
called on the enhanced input. -/
def advancedTab (engine : String → ResultDict) (user_input : String)
    (budget people_count : Nat) (location occasion : String) :
    List AppEvent :=
  let enhanced := enhanced_input user_input budget people_count location occasion
  if isBlank user_input then
    [AppEvent.warn "⚠️ Please enter your preferences"]
  else
    AppEvent.engineCall enhanced ::
      (display_recommendations (engine enhanced)).map AppEvent.render

/-! ## Concrete fixtures used by witnesses and counterexamples -/

/-- The coefficient of group size in the estimated cost: the sum of the
per-person contributions of the present items. -/
def estCoeff (movie restaurant activity : Option CatalogItem) : ℚ :=
  (match movie with
    | some _ => TICKET_PRICE
    | none => 0) +
  (match restaurant with
    | some r => (itemPerPersonCost r).getD 0
    | none => 0) +
  (match activity with
    | some a => (itemPerPersonCost a).getD 0
    | none => 0)

/-- A cheap restaurant open to groups of 1–10. -/
def wRestaurant : CatalogItem :=
  { id := "r-cheap", name := "Cheap Eats", cost := CostField.tier "$",
    groupMin := 1, groupMax := 10, location := none,
    embedding_text := "casual cheap" }

/-- An expensive restaurant that only fits groups of 1–2. -/
def wFancy : CatalogItem :=
  { id := "r-fancy", name := "Fancy Place", cost := CostField.tier "$$$$",
    groupMin := 1, groupMax := 2, location := none,
    embedding_text := "fancy dining" }

/-- A concrete activity. -/
def wActivity : CatalogItem :=
  { id := "a-hike", name := "City Hike", cost := CostField.perPerson 8,
    groupMin := 1, groupMax := 12, location := some "Downtown",
    embedding_text := "outdoor hike" }

/-- A concrete movie. -/
def wMovie : CatalogItem :=
  { id := "m-adv", name := "Adventure Movie", cost := CostField.noCost,
    groupMin := 1, groupMax := 100, location := none,
    embedding_text := "adventure" }

/-- A concrete preference record with a budget and a group size. -/
def wPrefs : PreferenceRecord :=
  { mood := some "adventurous", occasion := none, budget := some 20,
    group_size := some 4, location := none, raw_text := "adventurous" }

/-- A concrete well-formed catalog. -/
def wCatalog : Catalog :=
  { movies := [wMovie], restaurants := [wFancy, wRestaurant],
    activities := [wActivity] }

/-- A concrete engine context over `wCatalog` with deterministic
collaborators. -/
def wCtx : EngineCtx :=
  { catalog := Except.ok wCatalog,
    extractLM := fun text => some { emptyPrefs text with group_size := some 2 },
    embed := fun _ => [],
    sim := fun _ _ => 0,
    explain := fun _ _ _ _ => none,
    k := 5 }

/-- A context whose extraction reads a group size of 2 from the text
"two people" and 3 from any other text, over a catalog whose top-scored
restaurant only fits groups of at most 2. -/
def cexCtx : EngineCtx :=
  { catalog := Except.ok
      { movies := [], restaurants := [wFancy, wRestaurant], activities := [] },
    extractLM := fun text =>
      some { emptyPrefs text with
               group_size := if text = "two people" then some 2 else some 3 },
    embed := fun _ => [],
    sim := fun _ _ => 0,
    explain := fun _ _ _ _ => none,
    k := 5 }

/-- A context over a catalog with zero items in every domain. -/
def wEmptyCtx : EngineCtx :=
  { catalog := Except.ok { movies := [], restaurants := [], activities := [] },
    extractLM := fun _ => none,
    embed := fun _ => [],
    sim := fun _ _ => 0,
    explain := fun _ _ _ _ => none,
    k := 3 }

/-- A context whose extraction reads a group size of 1 from "solo" and 2
from any other text, over a single-restaurant catalog. -/
def wMonoCtx : EngineCtx :=
  { catalog := Except.ok
      { movies := [], restaurants := [wRestaurant], activities := [] },
    extractLM := fun text =>
      some { emptyPrefs text with
               group_size := if text = "solo" then some 1 else some 2 },
    embed := fun _ => [],
    sim := fun _ _ => 0,
    explain := fun _ _ _ _ => none,
    k := 5 }

/-- A concrete error result dict. -/
def wErrResult : ResultDict :=
  { status := some "error", message := some "Catalog failed to load",
    estimated_cost := none, movie := none, restaurant := none,
    activity := none, reasoning := none }

/-- A concrete ok result dict with every domain empty. -/
def wOkResult : ResultDict :=
  { status := some "ok", message := none, estimated_cost := some 24,
    movie := none, restaurant := none, activity := none,
    reasoning := some "Enjoy your evening." }

/-- A concrete engine stand-in for the app layer. -/
def wEngine : String → ResultDict := fun _ => wErrResult

/-- A concrete descending-score candidate list. -/
def wCandidates : List (CatalogItem × ℚ) := [(wFancy, 3), (wRestaurant, 2)]

/-! ## Helper lemmas -/

/-- Rounding to two decimals is monotone. -/
theorem round2_mono {x y : ℚ} (h : x ≤ y) : round2 x ≤ round2 y := by
  unfold round2
  have hr : round (100 * x) ≤ round (100 * y) := by
    rw [round_eq, round_eq]
    exact Int.floor_le_floor (by linarith)
  have : ((round (100 * x) : ℤ) : ℚ) ≤ ((round (100 * y) : ℤ) : ℚ) := by
    exact_mod_cast hr
  linarith

/-- Rounding to two decimals preserves nonnegativity. -/
theorem round2_nonneg {x : ℚ} (h : 0 ≤ x) : 0 ≤ round2 x := by
  have h0 : round2 0 = 0 := by
    unfold round2
    norm_num
  calc (0 : ℚ) = round2 0 := h0.symm
    _ ≤ round2 x := round2_mono h

/-- The tier-to-dollar mapping is nonnegative. -/
theorem tierToDollars_nonneg (t : String) : 0 ≤ tierToDollars t := by
  unfold tierToDollars
  split_ifs <;> norm_num

/-- A well-shaped item has a nonnegative per-person cost. -/
theorem itemPerPersonCost_nonneg {item : CatalogItem}
    (h : costNonneg item.cost = true) : 0 ≤ (itemPerPersonCost item).getD 0 := by
  cases hc : item.cost with
  | tier t =>
    simpa [itemPerPersonCost, hc] using tierToDollars_nonneg t
  | perPerson c =>
    rw [hc] at h
    simp only [costNonneg, decide_eq_true_eq] at h
    simpa [itemPerPersonCost, hc] using h
  | noCost =>
    simp [itemPerPersonCost, hc]

/-- The estimated cost is the group-size coefficient scaled by the
effective group size, rounded. -/
theorem estimate_eq_coeff (m r a : Option CatalogItem) (gs : Option Nat) :
    estimate m r a gs = round2 (estCoeff m r a * ((gs.getD 1 : Nat) : ℚ)) := by
  cases m <;> cases r <;> cases a <;>
    · simp only [estimate, estCoeff]
      congr 1
      ring

/-- The group-size coefficient is nonnegative for well-shaped items. -/
theorem estCoeff_nonneg (m r a : Option CatalogItem)
    (hr : r.all (fun x => costNonneg x.cost) = true)
    (ha : a.all (fun x => costNonneg x.cost) = true) :
    0 ≤ estCoeff m r a := by
  have hT : (0 : ℚ) ≤ TICKET_PRICE := by norm_num [TICKET_PRICE]
  have hm : 0 ≤ (match m with
      | some _ => TICKET_PRICE
      | none => (0 : ℚ)) := by
    cases m <;> simp [hT]
  have hr2 : 0 ≤ (match r with
      | some x => (itemPerPersonCost x).getD 0
      | none => (0 : ℚ)) := by
    cases r with
    | none => simp
    | some x => exact itemPerPersonCost_nonneg (by simpa [Option.all] using hr)
  have ha2 : 0 ≤ (match a with
      | some x => (itemPerPersonCost x).getD 0
      | none => (0 : ℚ)) := by
    cases a with
    | none => simp
    | some x => exact itemPerPersonCost_nonneg (by simpa [Option.all] using ha)
  exact add_nonneg (add_nonneg hm hr2) ha2

/-- Estimated cost is monotone in group size for fixed well-shaped
items. -/
theorem estimate_mono (m r a : Option CatalogItem) (g1 g2 : Option Nat)
    (hr : r.all (fun x => costNonneg x.cost) = true)
    (ha : a.all (fun x => costNonneg x.cost) = true)
    (hg : g1.getD 1 ≤ g2.getD 1) :
    estimate m r a g1 ≤ estimate m r a g2 := by
  rw [estimate_eq_coeff, estimate_eq_coeff]
  apply round2_mono
  have hc : 0 ≤ estCoeff m r a := estCoeff_nonneg m r a hr ha
  have hgq : ((g1.getD 1 : Nat) : ℚ) ≤ ((g2.getD 1 : Nat) : ℚ) := by
    exact_mod_cast hg
  exact mul_le_mul_of_nonneg_left hgq hc

/-- A successful `find?` splits its list into a prefix of elements
failing the predicate, the found element, and a suffix. -/
theorem find?_eq_some_split {α : Type _} {p : α → Bool} :
    ∀ {l : List α} {a : α}, l.find? p = some a →
      ∃ l1 l2, l = l1 ++ a :: l2 ∧ ∀ x ∈ l1, p x = false := by
  intro l
  induction l with
  | nil =>
    intro a h
    cases h
  | cons b t ih =>
    intro a h
    cases hb : p b with
    | true =>
      rw [List.find?_cons_of_pos t hb] at h
      obtain rfl : b = a := by injection h
      exact ⟨[], t, rfl, by simp⟩
    | false =>
      rw [List.find?_cons_of_neg t (by simp [hb])] at h
      obtain ⟨l1, l2, heq, hall⟩ := ih h
      refine ⟨b :: l1, l2, by rw [heq]; rfl, ?_⟩
      intro x hx
      rcases List.mem_cons.1 hx with h1 | h2
      · rw [h1]
        exact hb
      · exact hall x h2

/-- On a loaded catalog and non-blank text the orchestrator returns the
assembled ok record. -/
theorem get_recommendations_ok_proj (ctx : EngineCtx) (cat : Catalog)
    (t : String) (ht : isBlank t = false)
    (hcat : ctx.catalog = Except.ok cat) :
    (get_recommendations ctx t).status = "ok" ∧
    (get_recommendations ctx t).movie =
      domainPipeline ctx cat.movies (extractPrefs ctx t) ∧
    (get_recommendations ctx t).restaurant =
      domainPipeline ctx cat.restaurants (extractPrefs ctx t) ∧
    (get_recommendations ctx t).activity =
      domainPipeline ctx cat.activities (extractPrefs ctx t) ∧
    (get_recommendations ctx t).estimated_cost =
      estimate (domainPipeline ctx cat.movies (extractPrefs ctx t))
        (domainPipeline ctx cat.restaurants (extractPrefs ctx t))
        (domainPipeline ctx cat.activities (extractPrefs ctx t))
        (extractPrefs ctx t).group_size := by
  simp [get_recommendations, ht, hcat]

/-! ## Claim theorems -/

/-- C1: for every non-blank input string, `get_recommendations` returns
a result whose status is "ok" or "error"; being a total function of the
embedding, it never raises — any failure is converted into a
status "error" result with a message at the orchestrator boundary. -/
theorem get_recommendations_total_status (ctx : EngineCtx) (t : String)
    (h : isBlank t = false) :
    (get_recommendations ctx t).status = "ok" ∨
    (get_recommendations ctx t).status = "error" := by
  cases hcat : ctx.catalog with
  | error msg =>
    right
    simp [get_recommendations, h, hcat, errorResult]
  | ok cat =>
    left
    exact (get_recommendations_ok_proj ctx cat t h hcat).1

/-- Witness for C1 at a concrete context and input. -/
theorem get_recommendations_total_status_witness :
    (get_recommendations wCtx "hello").status = "ok" ∨
    (get_recommendations wCtx "hello").status = "error" :=
  get_recommendations_total_status wCtx "hello" (by decide)

/-- C2: on a descending-score candidate list the selector returns the
first candidate satisfying all specified constraints — every candidate
before the returned one violates some specified constraint, so a
violating candidate is never returned when a satisfying one exists; when
none satisfies them it falls back to the highest-scoring candidate; and
the empty list yields absent rather than an error. -/
theorem select_first_satisfying_or_fallback (prefs : PreferenceRecord)
    (candidates : List (CatalogItem × ℚ))
    (hsorted : candidates.Sorted (fun x y => y.2 ≤ x.2)) :
    (select [] prefs = none) ∧
    ((∃ cs ∈ candidates, satisfiesConstraints prefs cs.1 = true) →
      ∃ l1 c l2, candidates = l1 ++ c :: l2 ∧
        (∀ cs ∈ l1, satisfiesConstraints prefs cs.1 = false) ∧
        satisfiesConstraints prefs c.1 = true ∧
        select candidates prefs = some c.1) ∧
    ((∀ cs ∈ candidates, satisfiesConstraints prefs cs.1 = false) →
      ∀ hd, candidates.head? = some hd →
        select candidates prefs = some hd.1 ∧
        ∀ cs ∈ candidates, cs.2 ≤ hd.2) := by
  refine ⟨rfl, ?_, ?_⟩
  · rintro ⟨cs, hmem, hsat⟩
    have hsome : (candidates.find?
        (fun cs => satisfiesConstraints prefs cs.1)).isSome := by
      rw [List.find?_isSome]
      exact ⟨cs, hmem, hsat⟩
    obtain ⟨c, hc⟩ := Option.isSome_iff_exists.1 hsome
    have hp := List.find?_some hc
    obtain ⟨l1, l2, heq, hall⟩ := find?_eq_some_split hc
    refine ⟨l1, c, l2, heq, ?_, hp, by simp [select, hc]⟩
    intro x hx
    exact hall x hx
  · intro hall hd hhd
    have hnone : candidates.find?
        (fun cs => satisfiesConstraints prefs cs.1) = none := by
      rw [List.find?_eq_none]
      intro x hx
      simp [hall x hx]
    refine ⟨by simp [select, hnone, hhd], ?_⟩
    intro cs hcs
    cases candidates with
    | nil => cases hcs
    | cons a l =>
      have ha : hd = a := by
        simp only [List.head?_cons, Option.some.injEq] at hhd
        exact hhd.symm
      subst ha
      rcases List.mem_cons.1 hcs with h1 | h2
      · rw [h1]
      · exact (List.sorted_cons.1 hsorted).1 cs h2

/-- Witness for C2: on a concrete sorted candidate list whose head
violates the budget and group constraints, the selector returns the
first satisfying item — all candidates before it fail the constraints. -/
theorem select_first_satisfying_or_fallback_witness :
    ∃ l1 c l2, wCandidates = l1 ++ c :: l2 ∧
      (∀ cs ∈ l1, satisfiesConstraints wPrefs cs.1 = false) ∧
      satisfiesConstraints wPrefs c.1 = true ∧
      select wCandidates wPrefs = some c.1 :=
  (select_first_satisfying_or_fallback wPrefs wCandidates
    (by decide)).2.1 (by decide)

/-- C3: two calls with identical text against an unchanged catalog give
identical movie, restaurant and activity ids and identical
estimated cost, even when the reasoning collaborator behaves differently
between the calls (the reasoning text alone may vary). -/
theorem get_recommendations_idempotent (ctx : EngineCtx)
    (e : PreferenceRecord → Option CatalogItem → Option CatalogItem →
      Option CatalogItem → Option String) (t : String) :
    (get_recommendations { ctx with explain := e } t).movie.map
        CatalogItem.id =
      (get_recommendations ctx t).movie.map CatalogItem.id ∧
    (get_recommendations { ctx with explain := e } t).restaurant.map
        CatalogItem.id =
      (get_recommendations ctx t).restaurant.map CatalogItem.id ∧
    (get_recommendations { ctx with explain := e } t).activity.map
        CatalogItem.id =
      (get_recommendations ctx t).activity.map CatalogItem.id ∧
    (get_recommendations { ctx with explain := e } t).estimated_cost =
      (get_recommendations ctx t).estimated_cost := by
  obtain ⟨cat, ex, em, si, expl, k⟩ := ctx
  cases h : isBlank t with
  | true => simp [get_recommendations, h]
  | false =>
    cases cat with
    | error msg => simp [get_recommendations, h]
    | ok c => simp [get_recommendations, h, domainPipeline, extractPrefs]

/-- C4: blank (empty or whitespace-only) user input is rejected with the
user-facing warning in both the quick and the advanced paths, and the
engine is never invoked. -/
theorem empty_input_rejected (engine : String → ResultDict) (u : String)
    (b p : Nat) (loc occ : String) (h : isBlank u = true) :
    quickTab engine u = [AppEvent.warn "⚠️ Please enter your preferences"] ∧
    advancedTab engine u b p loc occ =
      [AppEvent.warn "⚠️ Please enter your preferences"] ∧
    (∀ t, AppEvent.engineCall t ∉ quickTab engine u) ∧
    (∀ t, AppEvent.engineCall t ∉ advancedTab engine u b p loc occ) := by
  refine ⟨?_, ?_, ?_, ?_⟩ <;> simp [quickTab, advancedTab, h]

/-- Witness for C4 at whitespace-only input. -/
theorem empty_input_rejected_witness :
    quickTab wEngine "   " = [AppEvent.warn "⚠️ Please enter your preferences"] :=
  (empty_input_rejected wEngine "   " 0 1 "Not specified" "Not specified"
    (by decide)).1

/-- C5: the cost estimator is the rounded sum of ticket price times
group size for the movie (group size 1 when absent), tier-mapped dollars
times group size for the restaurant, per-person cost times group size
for the activity, with absent items contributing 0, and is nonnegative
for well-shaped inputs. -/
theorem estimate_spec (m r a : CatalogItem) (tier : String) (c : ℚ)
    (gs : Option Nat) (hr : r.cost = CostField.tier tier)
    (ha : a.cost = CostField.perPerson c) :
    (estimate (some m) (some r) (some a) gs =
      round2 (TICKET_PRICE * ((gs.getD 1 : Nat) : ℚ) +
        tierToDollars tier * ((gs.getD 1 : Nat) : ℚ) +
        c * ((gs.getD 1 : Nat) : ℚ))) ∧
    (estimate none (some r) (some a) gs =
      round2 (tierToDollars tier * ((gs.getD 1 : Nat) : ℚ) +
        c * ((gs.getD 1 : Nat) : ℚ))) ∧
    (estimate (some m) none (some a) gs =
      round2 (TICKET_PRICE * ((gs.getD 1 : Nat) : ℚ) +
        c * ((gs.getD 1 : Nat) : ℚ))) ∧
    (estimate (some m) (some r) none gs =
      round2 (TICKET_PRICE * ((gs.getD 1 : Nat) : ℚ) +
        tierToDollars tier * ((gs.getD 1 : Nat) : ℚ))) ∧
    estimate none none none gs = 0 ∧
    (∀ (movie restaurant activity : Option CatalogItem) (g : Option Nat),
      restaurant.all (fun x => costNonneg x.cost) = true →
      activity.all (fun x => costNonneg x.cost) = true →
      0 ≤ estimate movie restaurant activity g) := by
  refine ⟨?_, ?_, ?_, ?_, ?_, ?_⟩
  · simp [estimate, itemPerPersonCost, hr, ha]
  · simp only [estimate, itemPerPersonCost, hr, ha]
    congr 1
    simp
  · simp only [estimate, itemPerPersonCost, hr, ha]
    congr 1
    simp
  · simp only [estimate, itemPerPersonCost, hr, ha]
    congr 1
    simp
  · simp [estimate, round2]
  · intro movie restaurant activity g hrs has
    rw [estimate_eq_coeff]
    exact round2_nonneg
      (mul_nonneg (estCoeff_nonneg movie restaurant activity hrs has)
        (Nat.cast_nonneg _))

/-- Witness for C5 at a concrete movie, restaurant, activity and group
size of 2. -/
theorem estimate_spec_witness :
    estimate (some wMovie) (some wRestaurant) (some wActivity) (some 2) =
      round2 (TICKET_PRICE * (((some 2 : Option Nat).getD 1 : Nat) : ℚ) +
        tierToDollars "$" * (((some 2 : Option Nat).getD 1 : Nat) : ℚ) +
        8 * (((some 2 : Option Nat).getD 1 : Nat) : ℚ)) :=
  (estimate_spec wMovie wRestaurant wActivity "$" 8 (some 2) rfl rfl).1

/-- C6 counterexample: two inputs whose extracted preferences agree on
every field except a larger group size (2 versus 3) yield a strictly
smaller estimated cost for the larger group, because the larger group no
longer fits the top-scored expensive restaurant and selection falls to a
cheap one. -/
theorem estimated_cost_not_monotone :
    (extractPrefs cexCtx "two people").group_size = some 2 ∧
    (extractPrefs cexCtx "three people").group_size = some 3 ∧
    (extractPrefs cexCtx "two people").budget =
      (extractPrefs cexCtx "three people").budget ∧
    (extractPrefs cexCtx "two people").mood =
      (extractPrefs cexCtx "three people").mood ∧
    (extractPrefs cexCtx "two people").occasion =
      (extractPrefs cexCtx "three people").occasion ∧
    (extractPrefs cexCtx "two people").location =
      (extractPrefs cexCtx "three people").location ∧
    (get_recommendations cexCtx "two people").estimated_cost = 140 ∧
    (get_recommendations cexCtx "three people").estimated_cost = 30 ∧
    (get_recommendations cexCtx "three people").estimated_cost <
      (get_recommendations cexCtx "two people").estimated_cost := by
  with_unfolding_all decide

/-- C6 amended: increasing the group size never decreases the estimated
cost provided the selected items are unchanged between the two runs (and
the selected items are well-shaped). -/
theorem estimated_cost_mono_of_same_selection (ctx : EngineCtx)
    (cat : Catalog) (t1 t2 : String)
    (hcat : ctx.catalog = Except.ok cat)
    (h1 : isBlank t1 = false) (h2 : isBlank t2 = false)
    (hm : (get_recommendations ctx t1).movie =
      (get_recommendations ctx t2).movie)
    (hr : (get_recommendations ctx t1).restaurant =
      (get_recommendations ctx t2).restaurant)
    (ha : (get_recommendations ctx t1).activity =
      (get_recommendations ctx t2).activity)
    (hsr : (get_recommendations ctx t1).restaurant.all
      (fun x => costNonneg x.cost) = true)
    (hsa : (get_recommendations ctx t1).activity.all
      (fun x => costNonneg x.cost) = true)
    (hg : (extractPrefs ctx t1).group_size.getD 1 ≤
      (extractPrefs ctx t2).group_size.getD 1) :
    (get_recommendations ctx t1).estimated_cost ≤
      (get_recommendations ctx t2).estimated_cost := by
  obtain ⟨-, hm1, hr1, ha1, hc1⟩ := get_recommendations_ok_proj ctx cat t1 h1 hcat
  obtain ⟨-, hm2, hr2, ha2, hc2⟩ := get_recommendations_ok_proj ctx cat t2 h2 hcat
  rw [hm1, hm2] at hm
  rw [hr1, hr2] at hr
  rw [ha1, ha2] at ha
  rw [hr1] at hsr
  rw [ha1] at hsa
  rw [hc1, hc2, ← hm, ← hr, ← ha]
  exact estimate_mono _ _ _ _ _ hsr hsa hg

/-- Witness for the amended C6 at a concrete context where the same
restaurant is selected for group sizes 1 and 2. -/
theorem estimated_cost_mono_of_same_selection_witness :
    (get_recommendations wMonoCtx "solo").estimated_cost ≤
      (get_recommendations wMonoCtx "duo").estimated_cost :=
  estimated_cost_mono_of_same_selection wMonoCtx
    { movies := [], restaurants := [wRestaurant], activities := [] }
    "solo" "duo" rfl (by decide) (by decide)
    (by with_unfolding_all decide) (by with_unfolding_all decide)
    (by with_unfolding_all decide) (by with_unfolding_all decide)
    (by with_unfolding_all decide) (by decide)

/-- C7: an index built from zero items answers every query with the
empty candidate list, the selector then returns absent for the domain,
and the overall result still has status "ok". -/
theorem empty_index_graceful (ctx : EngineCtx) (cat : Catalog) (t : String)
    (v : List ℚ) (hcat : ctx.catalog = Except.ok cat)
    (hm : cat.movies = []) (ht : isBlank t = false) :
    queryIndex ctx.sim (buildIndex ctx.embed cat.movies) v ctx.k = [] ∧
    (get_recommendations ctx t).movie = none ∧
    (get_recommendations ctx t).status = "ok" := by
  obtain ⟨hst, hmov, -, -, -⟩ := get_recommendations_ok_proj ctx cat t ht hcat
  refine ⟨?_, ?_, hst⟩
  · simp [queryIndex, buildIndex, hm]
  · rw [hmov, hm]
    simp [domainPipeline, queryIndex, buildIndex, select]

/-- Witness for C7 at a concrete context with an empty catalog. -/
theorem empty_index_graceful_witness :
    queryIndex wEmptyCtx.sim
      (buildIndex wEmptyCtx.embed (Catalog.mk [] [] []).movies) []
      wEmptyCtx.k = [] ∧
    (get_recommendations wEmptyCtx "hello").movie = none ∧
    (get_recommendations wEmptyCtx "hello").status = "ok" :=
  empty_index_graceful wEmptyCtx (Catalog.mk [] [] []) "hello" [] rfl rfl
    (by decide)

/-- C8: an error-status result renders as exactly one error message
containing the result's message field, and nothing else. -/
theorem display_error_single_message (result : ResultDict)
    (h : result.status = some "error") :
    display_recommendations result =
      [RenderAction.errorMsg ("❌ Error: " ++ fmtOptStr result.message)] := by
  simp [display_recommendations, h]

/-- Witness for C8 at a concrete error result. -/
theorem display_error_single_message_witness :
    display_recommendations wErrResult =
      [RenderAction.errorMsg ("❌ Error: " ++ fmtOptStr wErrResult.message)] :=
  display_error_single_message wErrResult rfl

/-- C9: for an ok-status result each per-domain display function returns
silently on an absent item, the cost panel and the raw-JSON view are
always rendered, and the screen is never blank; the rendering functions
are total, so they complete without raising. -/
theorem display_ok_renders (result : ResultDict)
    (h : result.status = some "ok") :
    (result.movie = none → display_movie_recommendation result.movie = []) ∧
    (result.restaurant = none →
      display_restaurant_recommendation result.restaurant = []) ∧
    (result.activity = none →
      display_activity_recommendation result.activity = []) ∧
    RenderAction.costPanel (result.estimated_cost.getD 0) ∈
      display_recommendations result ∧
    RenderAction.rawJson ∈ display_recommendations result ∧
    display_recommendations result ≠ [] := by
  have hne : ¬(result.status = some "error") := by
    rw [h]
    simp
  refine ⟨?_, ?_, ?_, ?_, ?_, ?_⟩
  · intro hm
    rw [hm]
    rfl
  · intro hrr
    rw [hrr]
    rfl
  · intro haa
    rw [haa]
    rfl
  · simp [display_recommendations, hne]
  · simp [display_recommendations, hne]
  · simp [display_recommendations, hne]

/-- Witness for C9 at a concrete ok result with all domains absent. -/
theorem display_ok_renders_witness :
    RenderAction.rawJson ∈ display_recommendations wOkResult :=
  (display_ok_renders wOkResult rfl).2.2.2.2.1

/-- C10: the advanced tab hands the engine the raw text extended by the
budget, group-size, location and occasion segments in that fixed order,
each appended exactly when its option departs from the default; with all
defaults the engine receives exactly the raw text; and the guard
inspects only the raw text, so advanced options alone never trigger a
recommendation. -/
theorem advanced_tab_enhanced_input (u : String) (b p : Nat)
    (loc occ : String) :
    enhanced_input u 0 1 "Not specified" "Not specified" = u ∧
    enhanced_input u b p loc occ =
      u ++ (if 0 < b then " Budget: $" ++ toString b else "") ++
      (if 1 < p then " Group size: " ++ toString p ++ " people" else "") ++
      (if loc ≠ "Not specified" then " Location: " ++ loc else "") ++
      (if occ ≠ "Not specified" then " Occasion: " ++ occ else "") ∧
    (∀ engine, isBlank u = true →
      advancedTab engine u b p loc occ =
        [AppEvent.warn "⚠️ Please enter your preferences"]) ∧
    (∀ engine, isBlank u = false →
      (advancedTab engine u b p loc occ).head? =
        some (AppEvent.engineCall (enhanced_input u b p loc occ))) := by
  refine ⟨by simp [enhanced_input], ?_, ?_, ?_⟩
  · simp only [enhanced_input]
    split_ifs <;> simp [← String.append_assoc]
  · intro engine hu
    simp [advancedTab, hu]
  · intro engine hu
    simp [advancedTab, hu]

/-- Witness for C10: with all-default options the engine receives the
raw text unchanged. -/
theorem advanced_tab_enhanced_input_witness :
    enhanced_input "movie night" 0 1 "Not specified" "Not specified" =
      "movie night" :=
  (advanced_tab_enhanced_input "movie night" 0 1 "Not specified"
    "Not specified").1

end RecSys
